import Mathlib

/-!
Verification of the `flash.text.TextField` builtin class
(`core/src/avm2/globals/flash/text/textfield.rs`).

The builtin functions themselves are translated directly from the source
file.  Their collaborators (the AVM2 `Value` coercions, the `EditText`
display object, the `Activation`'s `super_init` primitive and the
`Class`/`Trait` tables) are not part of the excerpted sources; they are
modelled from the specification, each with a doc comment saying so.
-/

/-- Modelled from the spec: the error taxonomy of §7 — property-not-found
(ReferenceError-class), type-coercion (TypeError-class), verify,
stack-overflow. -/
inductive Error where
  | propertyNotFound (name : String)
  | typeCoercion (msg : String)
  | verifyError (msg : String)
  | stackOverflow
deriving DecidableEq, Repr

/-- Modelled from the spec: an AVM2 value.  Numbers are modelled as
integers (the claims only exercise integral numbers); an object value
carries `some e` when its primitive-conversion chain throws `e`, and
`none` when it converts without error. -/
inductive Value where
  | undefined
  | null
  | boolean (b : Bool)
  | number (n : Int)
  | string (s : String)
  | object (throwErr : Option Error)
deriving DecidableEq, Repr

/-- Modelled from the spec: boolean coercion uses type-specific truthiness
(0, empty string, null/undefined → false; all else → true).  Infallible,
as in the source signature (`coerce_to_boolean` takes no activation). -/
def Value.coerce_to_boolean : Value → Bool
  | .undefined => false
  | .null => false
  | .boolean b => b
  | .number n => n != 0
  | .string s => s != ""
  | .object _ => true

def digitVal (c : Char) : Option Nat :=
  if c.isDigit then some (c.toNat - 48) else none

def parseDigits : List Char → Nat → Option Nat
  | [], acc => some acc
  | c :: cs, acc =>
    match digitVal c with
    | some d => parseDigits cs (acc * 10 + d)
    | none => none

/-- Modelled from the spec: numeric coercion parses numeric strings,
otherwise yields the not-a-number sentinel (`none` here).  The empty
string parses to 0 per the source language's rules. -/
def parseNumericString (s : String) : Option Int :=
  match s.data with
  | [] => some 0
  | '-' :: cs =>
    if cs.isEmpty then none
    else (parseDigits cs 0).map (fun n => -(n : Int))
  | cs => (parseDigits cs 0).map (fun n => (n : Int))

/-- Modelled from the spec: numeric coercion (`none` is the not-a-number
sentinel).  A failing object conversion chain raises its error; failures
are returned, never swallowed. -/
def Value.coerce_to_number : Value → Except Error (Option Int)
  | .undefined => .ok none
  | .null => .ok (some 0)
  | .boolean b => .ok (some (if b then 1 else 0))
  | .number n => .ok (some n)
  | .string s => .ok (parseNumericString s)
  | .object none => .ok none
  | .object (some e) => .error e

/-- Modelled from the spec: the not-a-number sentinel is folded to the
target integer width per the bit-width wraparound rule — NaN folds to 0,
an integral value is reduced modulo 2^32. -/
def Value.coerce_to_u32 (v : Value) : Except Error Nat :=
  match v.coerce_to_number with
  | .error e => .error e
  | .ok none => .ok 0
  | .ok (some n) => .ok ((n % (2 ^ 32 : Int)).toNat)

/-- Modelled from the spec: string coercion invokes the value's
string-conversion chain; a failing object conversion raises its error. -/
def Value.coerce_to_string : Value → Except Error String
  | .undefined => .ok "undefined"
  | .null => .ok "null"
  | .boolean b => .ok (if b then "true" else "false")
  | .number n => .ok (toString n)
  | .string s => .ok s
  | .object none => .ok "[object Object]"
  | .object (some e) => .error e

/-- Modelled from the spec: `coerce_to_object` — null and undefined do not
convert to an object and raise a type-coercion error; object values pass
through. -/
def Value.coerce_to_object : Value → Except Error Value
  | .undefined => .error (.typeCoercion "cannot convert undefined to object")
  | .null => .error (.typeCoercion "cannot convert null to object")
  | v => .ok v

example : Value.coerce_to_u32 (.string "abc") = .ok 0 := rfl
example : Value.coerce_to_u32 (.string "17") = .ok 17 := rfl
example : Value.coerce_to_boolean (.number 0) = false := by decide
example : Value.coerce_to_boolean (.string "x") = true := by decide

/-- `AutoSizeMode` of the display-object subsystem
(`crate::display_object::AutoSizeMode`), as matched on by `autosize` and
`set_autosize`. -/
inductive AutoSizeMode where
  | None
  | Left
  | Center
  | Right
deriving DecidableEq, Repr

/-- Modelled from the spec: a text format object handle.  The
`TextFormat` conversion chain (`crate::html::TextFormat`) is outside the
excerpted sources; only its identity matters here. -/
structure TextFormat where
  id : Nat
deriving DecidableEq, Repr

/-- Modelled from the spec: conversion of a `TextFormat` back to an AVM2
object (`TextFormat::as_avm2_object`); its conversion chain may fail. -/
def TextFormat.as_avm2_object (_tf : TextFormat) : Except Error Value :=
  .ok (.object none)

/-- Modelled from the spec: `TextFormat::from_avm2_object` reads the
format out of an AVM2 object; a throwing object propagates its error. -/
def TextFormat.from_avm2_object : Value → Except Error TextFormat
  | .object none => .ok ⟨0⟩
  | .object (some e) => .error e
  | _ => .error (.typeCoercion "not a TextFormat object")

/-- Modelled from the spec: the mutable state of an `EditText` native
backing (the renderable entity of the display/rendering subsystem) that
the `TextField` builtins read and write. -/
structure EditText where
  autosize : AutoSizeMode
  background_color : Nat
  has_border : Bool
  border_color : Nat
  is_password : Bool
  is_device_font : Bool
  html_text : String
  text_content : String
  new_text_format : TextFormat
deriving DecidableEq, Repr

/-- Modelled from the spec: `EditText::new` allocates a fresh native
backing; a freshly constructed instance returns `false` for `border`
before any write (the backing's default). -/
def EditText.new : EditText where
  autosize := .None
  background_color := 0xFFFFFF
  has_border := false
  border_color := 0
  is_password := false
  is_device_font := true
  html_text := ""
  text_content := ""
  new_text_format := ⟨0⟩

/-- A display object: either an `EditText` or some other kind (for which
`as_edit_text` fails). -/
inductive DisplayObject where
  | editText (et : EditText)
  | other
deriving DecidableEq, Repr

/-- `DisplayObject::as_edit_text`: downcast of a display object to an
`EditText`. -/
def DisplayObject.as_edit_text : DisplayObject → Option EditText
  | .editText et => some et
  | .other => none

/-- Modelled from the spec: a script-level object — it owns at most one
native backing (`display_object`), bound via `init_display_object`. -/
structure Object where
  display_object : Option DisplayObject
deriving DecidableEq, Repr

/-- `TObject::as_display_object`: the object's optional native backing. -/
def Object.as_display_object (o : Object) : Option DisplayObject :=
  o.display_object

/-- The receiver chain common to every builtin in the source file:
`this.and_then(|this| this.as_display_object()).and_then(|this| this.as_edit_text())`. -/
def receiverEditText (this : Option Object) : Option EditText :=
  (this.bind Object.as_display_object).bind DisplayObject.as_edit_text

/-- Write-back of an updated `EditText` into the receiver.  In the source
the builtins mutate the `EditText` in place through a shared GC cell; in
this explicit-state embedding the updated backing is stored back into the
receiver it was resolved from. -/
def storeEditText (this : Option Object) (et : EditText) : Option Object :=
  match this with
  | some obj =>
    match obj.display_object with
    | some (.editText _) => some { obj with display_object := some (.editText et) }
    | _ => some obj
  | none => none

/-- Implements `flash.text.TextField`'s instance constructor
(`instance_init` in the source).  `super_init` is the Activation's
super-constructor primitive, external to this file, passed as a
parameter: it runs the superclass constructor on the receiver and either
returns the (possibly mutated) receiver or an error.  After `super_init`
returns, a fresh `EditText` backing is bound only when the receiver has
no display object. -/
def instance_init (super_init : Object → Except Error Object)
    (this : Option Object) (_args : List Value) :
    Option Object × Except Error Value :=
  match this with
  | some obj =>
    match super_init obj with
    | .error e => (some obj, .error e)
    | .ok obj' =>
      if obj'.as_display_object.isNone then
        (some { obj' with display_object := some (.editText EditText.new) },
         .ok .undefined)
      else
        (some obj', .ok .undefined)
  | none => (none, .ok .undefined)

/-- Implements `flash.text.TextField`'s class constructor (`class_init`). -/
def class_init (this : Option Object) (_args : List Value) :
    Option Object × Except Error Value :=
  (this, .ok .undefined)

/-- The `autoSize` getter (`autosize` in the source). -/
def autosize (this : Option Object) (_args : List Value) : Except Error Value :=
  match receiverEditText this with
  | some et =>
    .ok (match et.autosize with
      | .None => .string "none"
      | .Left => .string "left"
      | .Center => .string "center"
      | .Right => .string "right")
  | none => .ok .undefined

/-- The `autoSize` setter (`set_autosize` in the source). -/
def set_autosize (this : Option Object) (args : List Value) :
    Option Object × Except Error Value :=
  match receiverEditText this with
  | some et =>
    match (args.getD 0 Value.undefined).coerce_to_string with
    | .error e => (this, .error e)
    | .ok value =>
      (storeEditText this
        { et with autosize :=
            match value with
            | "left" => AutoSizeMode.Left
            | "center" => AutoSizeMode.Center
            | "right" => AutoSizeMode.Right
            | _ => AutoSizeMode.None },
       .ok .undefined)
  | none => (this, .ok .undefined)

/-- The `backgroundColor` getter (`background_color` in the source). -/
def background_color (this : Option Object) (_args : List Value) :
    Except Error Value :=
  match receiverEditText this with
  | some et => .ok (.number (et.background_color : Int))
  | none => .ok .undefined

/-- The `backgroundColor` setter (`set_background_color` in the source). -/
def set_background_color (this : Option Object) (args : List Value) :
    Option Object × Except Error Value :=
  match receiverEditText this with
  | some et =>
    match (args.getD 0 Value.undefined).coerce_to_u32 with
    | .error e => (this, .error e)
    | .ok new_color =>
      (storeEditText this { et with background_color := new_color },
       .ok .undefined)
  | none => (this, .ok .undefined)

/-- The `border` getter (`border` in the source). -/
def border (this : Option Object) (_args : List Value) : Except Error Value :=
  match receiverEditText this with
  | some et => .ok (.boolean et.has_border)
  | none => .ok .undefined

/-- The `border` setter (`set_border` in the source). -/
def set_border (this : Option Object) (args : List Value) :
    Option Object × Except Error Value :=
  match receiverEditText this with
  | some et =>
    (storeEditText this
      { et with has_border := (args.getD 0 Value.undefined).coerce_to_boolean },
     .ok .undefined)
  | none => (this, .ok .undefined)

/-- The `borderColor` getter (`border_color` in the source). -/
def border_color (this : Option Object) (_args : List Value) :
    Except Error Value :=
  match receiverEditText this with
  | some et => .ok (.number (et.border_color : Int))
  | none => .ok .undefined

/-- The `borderColor` setter (`set_border_color` in the source). -/
def set_border_color (this : Option Object) (args : List Value) :
    Option Object × Except Error Value :=
  match receiverEditText this with
  | some et =>
    match (args.getD 0 Value.undefined).coerce_to_u32 with
    | .error e => (this, .error e)
    | .ok new_color =>
      (storeEditText this { et with border_color := new_color },
       .ok .undefined)
  | none => (this, .ok .undefined)

/-- The `defaultTextFormat` getter (`default_text_format` in the source). -/
def default_text_format (this : Option Object) (_args : List Value) :
    Except Error Value :=
  match receiverEditText this with
  | some et =>
    match et.new_text_format.as_avm2_object with
    | .error e => .error e
    | .ok v => .ok v
  | none => .ok .undefined

/-- The `defaultTextFormat` setter (`set_default_text_format` in the
source). -/
def set_default_text_format (this : Option Object) (args : List Value) :
    Option Object × Except Error Value :=
  match receiverEditText this with
  | some et =>
    match (args.getD 0 Value.undefined).coerce_to_object with
    | .error e => (this, .error e)
    | .ok obj_v =>
      match TextFormat.from_avm2_object obj_v with
      | .error e => (this, .error e)
      | .ok ntf =>
        (storeEditText this { et with new_text_format := ntf },
         .ok .undefined)
  | none => (this, .ok .undefined)

/-- The `displayAsPassword` getter (`display_as_password` in the
source). -/
def display_as_password (this : Option Object) (_args : List Value) :
    Except Error Value :=
  match receiverEditText this with
  | some et => .ok (.boolean et.is_password)
  | none => .ok .undefined

/-- The `displayAsPassword` setter (`set_display_as_password` in the
source). -/
def set_display_as_password (this : Option Object) (args : List Value) :
    Option Object × Except Error Value :=
  match receiverEditText this with
  | some et =>
    (storeEditText this
      { et with is_password := (args.getD 0 Value.undefined).coerce_to_boolean },
     .ok .undefined)
  | none => (this, .ok .undefined)

/-- The `embedFonts` getter (`embed_fonts` in the source): the negation
of the backing's device-font flag. -/
def embed_fonts (this : Option Object) (_args : List Value) :
    Except Error Value :=
  match receiverEditText this with
  | some et => .ok (.boolean (!et.is_device_font))
  | none => .ok .undefined

/-- The `embedFonts` setter (`set_embed_fonts` in the source). -/
def set_embed_fonts (this : Option Object) (args : List Value) :
    Option Object × Except Error Value :=
  match receiverEditText this with
  | some et =>
    (storeEditText this
      { et with is_device_font :=
          !(args.getD 0 Value.undefined).coerce_to_boolean },
     .ok .undefined)
  | none => (this, .ok .undefined)

/-- The `htmlText` getter (`html_text` in the source). -/
def html_text (this : Option Object) (_args : List Value) :
    Except Error Value :=
  match receiverEditText this with
  | some et => .ok (.string et.html_text)
  | none => .ok .undefined

/-- The `htmlText` setter (`set_html_text` in the source). -/
def set_html_text (this : Option Object) (args : List Value) :
    Option Object × Except Error Value :=
  match receiverEditText this with
  | some et =>
    match (args.getD 0 Value.undefined).coerce_to_string with
    | .error e => (this, .error e)
    | .ok s => (storeEditText this { et with html_text := s }, .ok .undefined)
  | none => (this, .ok .undefined)

/-- The `length` getter (`length` in the source): the backing's text
length. -/
def length (this : Option Object) (_args : List Value) : Except Error Value :=
  match receiverEditText this with
  | some et => .ok (.number (et.text_content.length : Int))
  | none => .ok .undefined

/-- Modelled from the spec: a namespace — discriminated public or
package(name); equality by discriminant plus name. -/
inductive Namespace where
  | publicNs
  | package (name : String)
deriving DecidableEq, Repr

/-- Constructor mirroring `Namespace::public()`. -/
def Namespace.public : Namespace := .publicNs

/-- Modelled from the spec: a QName — (Namespace, local-name string),
the unique key into trait tables. -/
structure QName where
  ns : Namespace
  local_name : String
deriving DecidableEq, Repr

/-- Constructor mirroring `QName::new(ns, name)`. -/
def QName.new (ns : Namespace) (local_name : String) : QName :=
  ⟨ns, local_name⟩

/-- One tag per native builtin of this file, standing in for the Rust
function pointer that `Method::from_builtin` wraps (pointer identity is
what the class table stores). -/
inductive NativeMethod where
  | instance_init
  | class_init
  | autosize
  | set_autosize
  | background_color
  | set_background_color
  | border
  | set_border
  | border_color
  | set_border_color
  | default_text_format
  | set_default_text_format
  | display_as_password
  | set_display_as_password
  | embed_fonts
  | set_embed_fonts
  | html_text
  | set_html_text
  | length
deriving DecidableEq, Repr

/-- Modelled from the spec: a Method — here always a native builtin
(`Method::from_builtin`). -/
inductive Method where
  | from_builtin (m : NativeMethod)
deriving DecidableEq, Repr

/-- Modelled from the spec: the trait kinds the claims exercise — Getter
and Setter, independent entries that jointly form one logical accessor. -/
inductive TraitKind where
  | getter (m : Method)
  | setter (m : Method)
deriving DecidableEq, Repr

/-- Modelled from the spec: a Trait — a named class-member descriptor. -/
structure Trait where
  name : QName
  kind : TraitKind
deriving DecidableEq, Repr

/-- Constructor mirroring `Trait::from_getter(name, method)`. -/
def Trait.from_getter (name : QName) (m : Method) : Trait :=
  ⟨name, .getter m⟩

/-- Constructor mirroring `Trait::from_setter(name, method)`. -/
def Trait.from_setter (name : QName) (m : Method) : Trait :=
  ⟨name, .setter m⟩

/-- Whether two trait kinds count as the same kind for the overwrite
rule: a getter only overwrites a getter, a setter only a setter. -/
def TraitKind.sameKind : TraitKind → TraitKind → Bool
  | .getter _, .getter _ => true
  | .setter _, .setter _ => true
  | _, _ => false

/-- Modelled from the spec: a Class — name, optional superclass
reference, constructor methods, ordered instance/static trait tables
keyed by QName. -/
structure AvmClass where
  name : QName
  super_class : Option QName
  instance_init : Method
  class_init : Method
  instance_traits : List Trait
  static_traits : List Trait
deriving DecidableEq, Repr

/-- Constructor mirroring `Class::new(name, super_class, instance_init,
class_init, mc)`: empty trait tables. -/
def AvmClass.new (name : QName) (super_class : Option QName)
    (instance_init class_init : Method) : AvmClass :=
  ⟨name, super_class, instance_init, class_init, [], []⟩

/-- Modelled from the spec: trait-table insertion — a second trait with
the same QName and same kind overwrites (in place); a Getter inserted
when only a Setter of that QName exists (or vice versa) is appended, so
the two compose into one logical accessor rather than overwriting. -/
def insertTrait (table : List Trait) (t : Trait) : List Trait :=
  if table.any (fun u => u.name == t.name && u.kind.sameKind t.kind) then
    table.map (fun u =>
      if u.name == t.name && u.kind.sameKind t.kind then t else u)
  else
    table ++ [t]

/-- `define_instance_trait`: insert into the instance trait table. -/
def AvmClass.define_instance_trait (c : AvmClass) (t : Trait) : AvmClass :=
  { c with instance_traits := insertTrait c.instance_traits t }

/-- The getter half a trait contributes to the logical accessor named
`q`: its method when the trait is a getter named `q`, nothing
otherwise. -/
def Trait.getter_half (q : QName) (t : Trait) : Option Method :=
  match t.kind with
  | .getter m => if t.name == q then some m else none
  | _ => none

/-- The setter half a trait contributes to the logical accessor named
`q`. -/
def Trait.setter_half (q : QName) (t : Trait) : Option Method :=
  match t.kind with
  | .setter m => if t.name == q then some m else none
  | _ => none

/-- Modelled from the spec: resolve the getter half of the logical
accessor for `q` in the class's own instance table. -/
def AvmClass.find_instance_getter (c : AvmClass) (q : QName) : Option Method :=
  (c.instance_traits.filterMap (Trait.getter_half q)).head?

/-- Modelled from the spec: resolve the setter half of the logical
accessor for `q` in the class's own instance table. -/
def AvmClass.find_instance_setter (c : AvmClass) (q : QName) : Option Method :=
  (c.instance_traits.filterMap (Trait.setter_half q)).head?

/-- Construct `TextField`'s class (`create_class` in the source): the
same registrations, in the same order. -/
def create_class : AvmClass :=
  let class0 := AvmClass.new
    (QName.new (Namespace.package "flash.text") "TextField")
    (some (QName.new (Namespace.package "flash.display") "InteractiveObject"))
    (Method.from_builtin .instance_init)
    (Method.from_builtin .class_init)
  let class0 := class0.define_instance_trait (Trait.from_getter
    (QName.new Namespace.public "autoSize") (Method.from_builtin .autosize))
  let class0 := class0.define_instance_trait (Trait.from_setter
    (QName.new Namespace.public "autoSize") (Method.from_builtin .set_autosize))
  let class0 := class0.define_instance_trait (Trait.from_getter
    (QName.new Namespace.public "backgroundColor")
    (Method.from_builtin .background_color))
  let class0 := class0.define_instance_trait (Trait.from_setter
    (QName.new Namespace.public "backgroundColor")
    (Method.from_builtin .set_background_color))
  let class0 := class0.define_instance_trait (Trait.from_getter
    (QName.new Namespace.public "border") (Method.from_builtin .border))
  let class0 := class0.define_instance_trait (Trait.from_setter
    (QName.new Namespace.public "border") (Method.from_builtin .set_border))
  let class0 := class0.define_instance_trait (Trait.from_getter
    (QName.new Namespace.public "borderColor")
    (Method.from_builtin .border_color))
  let class0 := class0.define_instance_trait (Trait.from_setter
    (QName.new Namespace.public "borderColor")
    (Method.from_builtin .set_border_color))
  let class0 := class0.define_instance_trait (Trait.from_getter
    (QName.new Namespace.public "defaultTextFormat")
    (Method.from_builtin .default_text_format))
  let class0 := class0.define_instance_trait (Trait.from_setter
    (QName.new Namespace.public "defaultTextFormat")
    (Method.from_builtin .set_default_text_format))
  let class0 := class0.define_instance_trait (Trait.from_getter
    (QName.new Namespace.public "displayAsPassword")
    (Method.from_builtin .display_as_password))
  let class0 := class0.define_instance_trait (Trait.from_setter
    (QName.new Namespace.public "displayAsPassword")
    (Method.from_builtin .set_display_as_password))
  let class0 := class0.define_instance_trait (Trait.from_getter
    (QName.new Namespace.public "embedFonts")
    (Method.from_builtin .embed_fonts))
  let class0 := class0.define_instance_trait (Trait.from_setter
    (QName.new Namespace.public "embedFonts")
    (Method.from_builtin .set_embed_fonts))
  let class0 := class0.define_instance_trait (Trait.from_getter
    (QName.new Namespace.public "htmlText") (Method.from_builtin .html_text))
  let class0 := class0.define_instance_trait (Trait.from_setter
    (QName.new Namespace.public "htmlText")
    (Method.from_builtin .set_html_text))
  let class0 := class0.define_instance_trait (Trait.from_getter
    (QName.new Namespace.public "length") (Method.from_builtin .length))
  class0




/-! Helper lemmas shared by the claim theorems. -/

/-- After writing an updated backing into a receiver that resolved to an
`EditText`, the receiver resolves to the updated backing. -/
theorem receiverEditText_store (this : Option Object) (et et' : EditText)
    (h : receiverEditText this = some et) :
    receiverEditText (storeEditText this et') = some et' := by
  rcases this with _ | obj
  · simp [receiverEditText] at h
  · rcases hdo : obj.display_object with _ | d
    · simp [receiverEditText, Object.as_display_object, hdo] at h
    · rcases d with e | _
      · simp [receiverEditText, storeEditText, Object.as_display_object, hdo,
          DisplayObject.as_edit_text]
      · simp [receiverEditText, Object.as_display_object, hdo,
          DisplayObject.as_edit_text] at h

/-- Two consecutive write-backs collapse to the last one. -/
theorem storeEditText_store (this : Option Object) (et1 et2 : EditText) :
    storeEditText (storeEditText this et1) et2 = storeEditText this et2 := by
  rcases this with _ | obj
  · rfl
  · rcases hdo : obj.display_object with _ | d
    · simp [storeEditText, hdo]
    · rcases d with e | _
      · simp [storeEditText, hdo]
      · simp [storeEditText, hdo]

/-- One successful run of the instance constructor: the receiver ends up
with its previous backing if it had one, and with a fresh `EditText`
backing otherwise. -/
theorem instance_init_display (s : Object → Except Error Object)
    (obj o' : Object) (args : List Value) (hs : s obj = .ok o') :
    ∃ obj1, instance_init s (some obj) args = (some obj1, .ok .undefined)
      ∧ obj1.display_object
          = some (o'.display_object.getD (.editText EditText.new)) := by
  rcases hd : o'.display_object with _ | d
  · exact ⟨{ o' with display_object := some (.editText EditText.new) },
      by simp [instance_init, hs, Object.as_display_object, hd], by simp [hd]⟩
  · exact ⟨o', by simp [instance_init, hs, Object.as_display_object, hd],
      by simp [hd]⟩

/-- Replacing a matching setter entry never changes the getter half any
trait contributes. -/
theorem getter_half_replace_setter (q q' : QName) (m : Method) (u : Trait) :
    Trait.getter_half q'
      (if u.name == (Trait.from_setter q m).name
          && u.kind.sameKind (Trait.from_setter q m).kind
        then Trait.from_setter q m else u)
      = Trait.getter_half q' u := by
  rcases u with ⟨un, uk⟩
  rcases uk with g | s2
  · simp [Trait.from_setter, TraitKind.sameKind]
  · split
    · rfl
    · rfl

/-- Replacing a matching getter entry never changes the setter half any
trait contributes. -/
theorem setter_half_replace_getter (q q' : QName) (m : Method) (u : Trait) :
    Trait.setter_half q'
      (if u.name == (Trait.from_getter q m).name
          && u.kind.sameKind (Trait.from_getter q m).kind
        then Trait.from_getter q m else u)
      = Trait.setter_half q' u := by
  rcases u with ⟨un, uk⟩
  rcases uk with g | s2
  · split
    · rfl
    · rfl
  · simp [Trait.from_getter, TraitKind.sameKind]

/-- A trait that does not match the setter-overwrite condition for `q`
contributes no setter half for `q`. -/
theorem setter_half_of_not_cond (q : QName) (m : Method) (u : Trait)
    (h : (u.name == (Trait.from_setter q m).name
        && u.kind.sameKind (Trait.from_setter q m).kind) = false) :
    Trait.setter_half q u = none := by
  rcases u with ⟨un, uk⟩
  rcases uk with g | s2
  · rfl
  · simp [Trait.from_setter, TraitKind.sameKind] at h
    simp [Trait.setter_half, h]

/-- A trait that does not match the getter-overwrite condition for `q`
contributes no getter half for `q`. -/
theorem getter_half_of_not_cond (q : QName) (m : Method) (u : Trait)
    (h : (u.name == (Trait.from_getter q m).name
        && u.kind.sameKind (Trait.from_getter q m).kind) = false) :
    Trait.getter_half q u = none := by
  rcases u with ⟨un, uk⟩
  rcases uk with g | s2
  · simp [Trait.from_getter, TraitKind.sameKind] at h
    simp [Trait.getter_half, h]
  · rfl

/-- The overwrite pass for a setter leaves the getter halves of the whole
table unchanged. -/
theorem filterMap_getter_map_replace_setter (table : List Trait)
    (q q' : QName) (m : Method) :
    (table.map (fun u =>
        if u.name == (Trait.from_setter q m).name
            && u.kind.sameKind (Trait.from_setter q m).kind
          then Trait.from_setter q m else u)).filterMap (Trait.getter_half q')
      = table.filterMap (Trait.getter_half q') := by
  induction table with
  | nil => rfl
  | cons u us ih =>
    rw [List.map_cons, List.filterMap_cons, List.filterMap_cons,
      getter_half_replace_setter, ih]

/-- The overwrite pass for a getter leaves the setter halves of the whole
table unchanged. -/
theorem filterMap_setter_map_replace_getter (table : List Trait)
    (q q' : QName) (m : Method) :
    (table.map (fun u =>
        if u.name == (Trait.from_getter q m).name
            && u.kind.sameKind (Trait.from_getter q m).kind
          then Trait.from_getter q m else u)).filterMap (Trait.setter_half q')
      = table.filterMap (Trait.setter_half q') := by
  induction table with
  | nil => rfl
  | cons u us ih =>
    rw [List.map_cons, List.filterMap_cons, List.filterMap_cons,
      setter_half_replace_getter, ih]

/-- After the overwrite pass for a setter named `q`, the first setter
half for `q` in the table is the inserted method. -/
theorem filterMap_setter_map_replace_setter (table : List Trait)
    (q : QName) (m : Method)
    (h : table.any (fun u =>
        u.name == (Trait.from_setter q m).name
          && u.kind.sameKind (Trait.from_setter q m).kind) = true) :
    ((table.map (fun u =>
        if u.name == (Trait.from_setter q m).name
            && u.kind.sameKind (Trait.from_setter q m).kind
          then Trait.from_setter q m else u)).filterMap
      (Trait.setter_half q)).head? = some m := by
  induction table with
  | nil => simp at h
  | cons u us ih =>
    rw [List.any_cons] at h
    by_cases hc : (u.name == (Trait.from_setter q m).name
        && u.kind.sameKind (Trait.from_setter q m).kind) = true
    · rw [List.map_cons, List.filterMap_cons, if_pos hc]
      have hq : Trait.setter_half q (Trait.from_setter q m) = some m := by
        simp [Trait.setter_half, Trait.from_setter]
      rw [hq]
      rfl
    · rw [Bool.or_eq_true] at h
      rcases h with h | h
      · exact absurd h hc
      · rw [List.map_cons, List.filterMap_cons, if_neg hc,
          setter_half_of_not_cond q m u (Bool.not_eq_true _ ▸ hc)]
        exact ih h

/-- After the overwrite pass for a getter named `q`, the first getter
half for `q` in the table is the inserted method. -/
theorem filterMap_getter_map_replace_getter (table : List Trait)
    (q : QName) (m : Method)
    (h : table.any (fun u =>
        u.name == (Trait.from_getter q m).name
          && u.kind.sameKind (Trait.from_getter q m).kind) = true) :
    ((table.map (fun u =>
        if u.name == (Trait.from_getter q m).name
            && u.kind.sameKind (Trait.from_getter q m).kind
          then Trait.from_getter q m else u)).filterMap
      (Trait.getter_half q)).head? = some m := by
  induction table with
  | nil => simp at h
  | cons u us ih =>
    rw [List.any_cons] at h
    by_cases hc : (u.name == (Trait.from_getter q m).name
        && u.kind.sameKind (Trait.from_getter q m).kind) = true
    · rw [List.map_cons, List.filterMap_cons, if_pos hc]
      have hq : Trait.getter_half q (Trait.from_getter q m) = some m := by
        simp [Trait.getter_half, Trait.from_getter]
      rw [hq]
      rfl
    · rw [Bool.or_eq_true] at h
      rcases h with h | h
      · exact absurd h hc
      · rw [List.map_cons, List.filterMap_cons, if_neg hc,
          getter_half_of_not_cond q m u (Bool.not_eq_true _ ▸ hc)]
        exact ih h

/-- Defining a setter trait never disturbs getter resolution: the getter
half of every logical accessor is preserved. -/
theorem find_getter_after_define_setter (c : AvmClass) (q q' : QName)
    (m : Method) :
    (c.define_instance_trait (Trait.from_setter q m)).find_instance_getter q'
      = c.find_instance_getter q' := by
  unfold AvmClass.define_instance_trait AvmClass.find_instance_getter
  simp only
  unfold insertTrait
  split
  · rw [filterMap_getter_map_replace_setter]
  · rw [List.filterMap_append]
    simp [Trait.getter_half, Trait.from_setter]

/-- Defining a getter trait never disturbs setter resolution. -/
theorem find_setter_after_define_getter (c : AvmClass) (q q' : QName)
    (m : Method) :
    (c.define_instance_trait (Trait.from_getter q m)).find_instance_setter q'
      = c.find_instance_setter q' := by
  unfold AvmClass.define_instance_trait AvmClass.find_instance_setter
  simp only
  unfold insertTrait
  split
  · rw [filterMap_setter_map_replace_getter]
  · rw [List.filterMap_append]
    simp [Trait.setter_half, Trait.from_getter]

/-- After defining a setter trait for `q`, the setter half of `q`
resolves to the inserted method (overwriting any previous setter). -/
theorem find_setter_after_define_setter (c : AvmClass) (q : QName)
    (m : Method) :
    (c.define_instance_trait (Trait.from_setter q m)).find_instance_setter q
      = some m := by
  unfold AvmClass.define_instance_trait AvmClass.find_instance_setter
  simp only
  unfold insertTrait
  split
  · next h => exact filterMap_setter_map_replace_setter c.instance_traits q m h
  · next h =>
    rw [List.filterMap_append]
    have hnil : c.instance_traits.filterMap (Trait.setter_half q) = [] := by
      refine List.filterMap_eq_nil_iff.mpr (fun u hu => ?_)
      refine setter_half_of_not_cond q m u ?_
      rw [Bool.eq_false_iff]
      intro hcond
      exact h (List.any_eq_true.mpr ⟨u, hu, hcond⟩)
    rw [hnil]
    simp [Trait.setter_half, Trait.from_setter]

/-- After defining a getter trait for `q`, the getter half of `q`
resolves to the inserted method. -/
theorem find_getter_after_define_getter (c : AvmClass) (q : QName)
    (m : Method) :
    (c.define_instance_trait (Trait.from_getter q m)).find_instance_getter q
      = some m := by
  unfold AvmClass.define_instance_trait AvmClass.find_instance_getter
  simp only
  unfold insertTrait
  split
  · next h => exact filterMap_getter_map_replace_getter c.instance_traits q m h
  · next h =>
    rw [List.filterMap_append]
    have hnil : c.instance_traits.filterMap (Trait.getter_half q) = [] := by
      refine List.filterMap_eq_nil_iff.mpr (fun u hu => ?_)
      refine getter_half_of_not_cond q m u ?_
      rw [Bool.eq_false_iff]
      intro hcond
      exact h (List.any_eq_true.mpr ⟨u, hu, hcond⟩)
    rw [hnil]
    simp [Trait.getter_half, Trait.from_getter]

/-! The claim theorems. -/

/-- C1: for every receiver backed by an `EditText` and every argument
value `v`, calling `set_border` with `[v]` and then calling the `border`
getter returns exactly `coerce_to_boolean v` (as a boolean value). -/
theorem set_border_then_border_reflects_coercion
    (this : Option Object) (et : EditText) (v : Value)
    (h : receiverEditText this = some et) :
    border (set_border this [v]).1 [] = .ok (.boolean v.coerce_to_boolean) := by
  have h1 : (set_border this [v]).1
      = storeEditText this { et with has_border := v.coerce_to_boolean } := by
    simp [set_border, h]
  have h2 := receiverEditText_store this et
    { et with has_border := v.coerce_to_boolean } h
  rw [h1]
  simp [border, h2]

/-- C1 witness: setting `border` to the number 1 makes the subsequent
get return `true`. -/
theorem set_border_then_border_reflects_coercion_witness :
    border (set_border (some ⟨some (.editText EditText.new)⟩)
        [.number 1]).1 []
      = .ok (.boolean true) :=
  set_border_then_border_reflects_coercion _ EditText.new (.number 1) rfl

/-- C3: in the instance constructor, `super_init` runs before any other
effect on the receiver; if it returns an error the constructor returns
that same error immediately, without binding a native backing and
without any other mutation of the receiver. -/
theorem instance_init_super_error_propagates
    (s : Object → Except Error Object) (obj : Object) (e : Error)
    (args : List Value) (h : s obj = .error e) :
    instance_init s (some obj) args = (some obj, .error e) := by
  simp [instance_init, h]

/-- C3 witness: a failing super constructor's stack-overflow error is
returned unchanged and the receiver is untouched. -/
theorem instance_init_super_error_propagates_witness :
    instance_init (fun _ => .error .stackOverflow) (some ⟨none⟩) []
      = (some ⟨none⟩, .error .stackOverflow) :=
  instance_init_super_error_propagates _ ⟨none⟩ .stackOverflow [] rfl

/-- C4: for every `EditText`-backed receiver and argument value, the
`backgroundColor` and `borderColor` setters either store the coerced
u32 and return `Ok(Undefined)`, or return the coercion's error unchanged
while leaving the receiver (and hence the stored color) unchanged. -/
theorem color_setters_store_or_propagate
    (this : Option Object) (et : EditText) (args : List Value)
    (h : receiverEditText this = some et) :
    (∀ c, (args.getD 0 Value.undefined).coerce_to_u32 = .ok c →
        set_background_color this args
          = (storeEditText this { et with background_color := c },
             .ok .undefined)
        ∧ set_border_color this args
          = (storeEditText this { et with border_color := c },
             .ok .undefined)
        ∧ receiverEditText (set_background_color this args).1
          = some { et with background_color := c }
        ∧ receiverEditText (set_border_color this args).1
          = some { et with border_color := c })
    ∧ (∀ e, (args.getD 0 Value.undefined).coerce_to_u32 = .error e →
        set_background_color this args = (this, .error e)
        ∧ set_border_color this args = (this, .error e)) := by
  constructor
  · intro c hc
    have h1 : set_background_color this args
        = (storeEditText this { et with background_color := c },
           .ok .undefined) := by
      simp only [set_background_color, h, hc]
    have h2 : set_border_color this args
        = (storeEditText this { et with border_color := c },
           .ok .undefined) := by
      simp only [set_border_color, h, hc]
    exact ⟨h1, h2,
      by rw [h1]; exact receiverEditText_store this et _ h,
      by rw [h2]; exact receiverEditText_store this et _ h⟩
  · intro e he
    exact ⟨by simp only [set_background_color, h, he],
      by simp only [set_border_color, h, he]⟩

/-- C4 witness: setting `backgroundColor` to the number 5 stores 5. -/
theorem color_setters_store_or_propagate_witness :
    set_background_color (some ⟨some (.editText EditText.new)⟩)
        [.number 5]
      = (storeEditText (some ⟨some (.editText EditText.new)⟩)
          { EditText.new with background_color := 5 }, .ok .undefined) :=
  ((color_setters_store_or_propagate
      (some ⟨some (.editText EditText.new)⟩) EditText.new
      [.number 5] rfl).1 5 rfl).1

/-- C5: `coerce_to_boolean` maps 0, the empty string, null and undefined
to `false`, and 1, the string "x" and every (non-null) object to `true`;
`coerce_to_u32` of the non-numeric string "abc" does not fail and
yields 0. -/
theorem coercion_boundary :
    Value.coerce_to_boolean (.number 0) = false
    ∧ Value.coerce_to_boolean (.string "") = false
    ∧ Value.coerce_to_boolean .null = false
    ∧ Value.coerce_to_boolean .undefined = false
    ∧ Value.coerce_to_boolean (.number 1) = true
    ∧ Value.coerce_to_boolean (.string "x") = true
    ∧ (∀ t : Option Error, Value.coerce_to_boolean (.object t) = true)
    ∧ Value.coerce_to_u32 (.string "abc") = .ok 0 :=
  ⟨by decide, by decide, rfl, rfl, by decide, by decide, fun _ => rfl, rfl⟩

/-- C2: the instance constructor binds a fresh `EditText` backing only
when the receiver has no display object after `super_init` returns;
running the constructor chain repeatedly yields exactly one bound
backing, every run after the first being a no-op for binding.  The
hypothesis says the super-constructor chain succeeds and does not itself
bind or unbind a backing (only the root of the chain binds, and here the
modelled superclass chain contains no root that binds). -/
theorem instance_init_binds_backing_once
    (s : Object → Except Error Object) (obj : Object)
    (args args' : List Value)
    (hs : ∀ o, ∃ o', s o = Except.ok o'
      ∧ o'.display_object = o.display_object) :
    ∃ obj1 obj2,
      (instance_init s (some obj) args).1 = some obj1
      ∧ obj1.display_object.isSome
      ∧ (∀ d, obj.display_object = some d → obj1.display_object = some d)
      ∧ (obj.display_object = none →
          obj1.display_object = some (.editText EditText.new))
      ∧ (instance_init s (some obj1) args').1 = some obj2
      ∧ obj2.display_object = obj1.display_object := by
  obtain ⟨o1, hs1, hp1⟩ := hs obj
  obtain ⟨obj1, h1, hd1⟩ := instance_init_display s obj o1 args hs1
  obtain ⟨o2, hs2, hp2⟩ := hs obj1
  obtain ⟨obj2, h2, hd2⟩ := instance_init_display s obj1 o2 args' hs2
  refine ⟨obj1, obj2, by rw [h1], ?_, ?_, ?_, by rw [h2], ?_⟩
  · rw [hd1]
    rfl
  · intro d hdo
    rw [hd1, hp1, hdo]
    rfl
  · intro hdo
    rw [hd1, hp1, hdo]
    rfl
  · rw [hd2, hp2, hd1]
    rfl

/-- C2 witness: with a trivial super constructor and a bare receiver,
the first run binds the backing and the second run leaves it alone. -/
theorem instance_init_binds_backing_once_witness :
    ∃ obj1 obj2,
      (instance_init (fun o => .ok o) (some ⟨none⟩) []).1 = some obj1
      ∧ obj1.display_object.isSome
      ∧ (∀ d, (Object.mk none).display_object = some d →
          obj1.display_object = some d)
      ∧ ((Object.mk none).display_object = none →
          obj1.display_object = some (.editText EditText.new))
      ∧ (instance_init (fun o => .ok o) (some obj1) []).1 = some obj2
      ∧ obj2.display_object = obj1.display_object :=
  instance_init_binds_backing_once (fun o => .ok o) ⟨none⟩ [] []
    (fun o => ⟨o, rfl, rfl⟩)

/-- C8: an object freshly constructed by the instance constructor, with
no intervening write, returns `false` from the `border` getter (the
backing's default). -/
theorem fresh_instance_border_false
    (s : Object → Except Error Object) (obj o' : Object) (args : List Value)
    (hs : s obj = .ok o') (hnone : o'.display_object = none) :
    ∃ obj1, (instance_init s (some obj) args).1 = some obj1
      ∧ border (some obj1) [] = .ok (.boolean false) := by
  obtain ⟨obj1, h1, hd⟩ := instance_init_display s obj o' args hs
  refine ⟨obj1, by rw [h1], ?_⟩
  rw [hnone] at hd
  simp [border, receiverEditText, Object.as_display_object, hd,
    DisplayObject.as_edit_text, EditText.new]

/-- C8 witness: the concrete fresh construction starting from a bare
receiver under a trivial super constructor. -/
theorem fresh_instance_border_false_witness :
    ∃ obj1, (instance_init (fun o => .ok o) (some ⟨none⟩) []).1 = some obj1
      ∧ border (some obj1) [] = .ok (.boolean false) :=
  fresh_instance_border_false (fun o => .ok o) ⟨none⟩ ⟨none⟩ [] rfl rfl

/-- C9: every getter and setter builtin of this file, when the receiver
is `None`, has no display object, or has a display object that is not an
`EditText`, returns `Ok(Undefined)`, mutates nothing and raises no
error. -/
theorem non_edit_text_receiver_is_noop
    (this : Option Object) (args : List Value)
    (h : receiverEditText this = none) :
    autosize this args = .ok .undefined
    ∧ set_autosize this args = (this, .ok .undefined)
    ∧ background_color this args = .ok .undefined
    ∧ set_background_color this args = (this, .ok .undefined)
    ∧ border this args = .ok .undefined
    ∧ set_border this args = (this, .ok .undefined)
    ∧ border_color this args = .ok .undefined
    ∧ set_border_color this args = (this, .ok .undefined)
    ∧ display_as_password this args = .ok .undefined
    ∧ set_display_as_password this args = (this, .ok .undefined)
    ∧ embed_fonts this args = .ok .undefined
    ∧ set_embed_fonts this args = (this, .ok .undefined)
    ∧ html_text this args = .ok .undefined
    ∧ set_html_text this args = (this, .ok .undefined)
    ∧ length this args = .ok .undefined
    ∧ default_text_format this args = .ok .undefined
    ∧ set_default_text_format this args = (this, .ok .undefined) := by
  refine ⟨?_, ?_, ?_, ?_, ?_, ?_, ?_, ?_, ?_, ?_, ?_, ?_, ?_, ?_, ?_, ?_, ?_⟩
    <;> simp only [autosize, set_autosize, background_color,
      set_background_color, border, set_border, border_color,
      set_border_color, display_as_password, set_display_as_password,
      embed_fonts, set_embed_fonts, html_text, set_html_text, length,
      default_text_format, set_default_text_format, h]

/-- C9 witness: the `None` receiver. -/
theorem non_edit_text_receiver_is_noop_witness :
    autosize (none : Option Object) [] = .ok .undefined
    ∧ set_autosize (none : Option Object) []
        = ((none : Option Object), .ok .undefined) :=
  ⟨(non_edit_text_receiver_is_noop none [] rfl).1,
   (non_edit_text_receiver_is_noop none [] rfl).2.1⟩

/-- C6: `create_class` returns a class named `flash.text::TextField`
with superclass reference `flash.display::InteractiveObject`, with
`instance_init` and `class_init` as its constructors, and with a getter
and a setter registered on the public QName `border` in its instance
trait table. -/
theorem create_class_shape :
    create_class.name = QName.new (Namespace.package "flash.text") "TextField"
    ∧ create_class.super_class
        = some (QName.new (Namespace.package "flash.display")
            "InteractiveObject")
    ∧ create_class.instance_init = Method.from_builtin .instance_init
    ∧ create_class.class_init = Method.from_builtin .class_init
    ∧ create_class.find_instance_getter (QName.new Namespace.public "border")
        = some (Method.from_builtin .border)
    ∧ create_class.find_instance_setter (QName.new Namespace.public "border")
        = some (Method.from_builtin .set_border) :=
  ⟨rfl, rfl, rfl, rfl, rfl, rfl⟩

/-- C7: defining the setter half of an accessor composes with an
existing getter half (and vice versa) instead of overwriting it — for
every class, getter resolution is untouched by a setter definition and
setter resolution is untouched by a getter definition, while the
inserted half resolves to the inserted method; consequently, after
`create_class` runs, both halves of each of its eight paired accessors
remain resolvable. -/
theorem accessors_compose_in_create_class :
    (∀ (c : AvmClass) (q q' : QName) (m : Method),
        (c.define_instance_trait (Trait.from_setter q m)).find_instance_getter
            q'
          = c.find_instance_getter q'
        ∧ (c.define_instance_trait
            (Trait.from_getter q m)).find_instance_setter q'
          = c.find_instance_setter q'
        ∧ (c.define_instance_trait
            (Trait.from_setter q m)).find_instance_setter q
          = some m
        ∧ (c.define_instance_trait
            (Trait.from_getter q m)).find_instance_getter q
          = some m)
    ∧ create_class.find_instance_getter (QName.new Namespace.public "autoSize")
        = some (Method.from_builtin .autosize)
    ∧ create_class.find_instance_setter (QName.new Namespace.public "autoSize")
        = some (Method.from_builtin .set_autosize)
    ∧ create_class.find_instance_getter
        (QName.new Namespace.public "backgroundColor")
        = some (Method.from_builtin .background_color)
    ∧ create_class.find_instance_setter
        (QName.new Namespace.public "backgroundColor")
        = some (Method.from_builtin .set_background_color)
    ∧ create_class.find_instance_getter (QName.new Namespace.public "border")
        = some (Method.from_builtin .border)
    ∧ create_class.find_instance_setter (QName.new Namespace.public "border")
        = some (Method.from_builtin .set_border)
    ∧ create_class.find_instance_getter
        (QName.new Namespace.public "borderColor")
        = some (Method.from_builtin .border_color)
    ∧ create_class.find_instance_setter
        (QName.new Namespace.public "borderColor")
        = some (Method.from_builtin .set_border_color)
    ∧ create_class.find_instance_getter
        (QName.new Namespace.public "defaultTextFormat")
        = some (Method.from_builtin .default_text_format)
    ∧ create_class.find_instance_setter
        (QName.new Namespace.public "defaultTextFormat")
        = some (Method.from_builtin .set_default_text_format)
    ∧ create_class.find_instance_getter
        (QName.new Namespace.public "displayAsPassword")
        = some (Method.from_builtin .display_as_password)
    ∧ create_class.find_instance_setter
        (QName.new Namespace.public "displayAsPassword")
        = some (Method.from_builtin .set_display_as_password)
    ∧ create_class.find_instance_getter
        (QName.new Namespace.public "embedFonts")
        = some (Method.from_builtin .embed_fonts)
    ∧ create_class.find_instance_setter
        (QName.new Namespace.public "embedFonts")
        = some (Method.from_builtin .set_embed_fonts)
    ∧ create_class.find_instance_getter (QName.new Namespace.public "htmlText")
        = some (Method.from_builtin .html_text)
    ∧ create_class.find_instance_setter (QName.new Namespace.public "htmlText")
        = some (Method.from_builtin .set_html_text) :=
  ⟨fun c q q' m =>
    ⟨find_getter_after_define_setter c q q' m,
     find_setter_after_define_getter c q q' m,
     find_setter_after_define_setter c q m,
     find_getter_after_define_getter c q m⟩,
   rfl, rfl, rfl, rfl, rfl, rfl, rfl, rfl,
   rfl, rfl, rfl, rfl, rfl, rfl, rfl, rfl⟩

/-- A string that is none of "left", "center", "right" selects the
default arm of `set_autosize`'s mode match. -/
theorem autosize_match_default (s : String) (h1 : s ≠ "left")
    (h2 : s ≠ "center") (h3 : s ≠ "right") :
    (match s with
      | "left" => AutoSizeMode.Left
      | "center" => AutoSizeMode.Center
      | "right" => AutoSizeMode.Right
      | _ => AutoSizeMode.None) = AutoSizeMode.None := by
  split
  · rename_i hx1 hx2 hx3
    exact absurd rfl hx1
  · rename_i hx1 hx2 hx3
    exact absurd rfl hx2
  · rename_i hx1 hx2 hx3
    exact absurd rfl hx3
  · rfl

/-- C10: for an `EditText`-backed receiver, `set_autosize` stores mode
Left, Center or Right exactly when the coerced string is "left",
"center" or "right", and mode None for every other string; the
`autosize` getter afterwards returns one of exactly "none", "left",
"center", "right", and re-setting with the returned string leaves the
mode unchanged. -/
theorem set_autosize_stores_mode_and_roundtrips
    (this : Option Object) (et : EditText) (v : Value) (str : String)
    (h : receiverEditText this = some et)
    (hc : v.coerce_to_string = .ok str) :
    ∃ m : AutoSizeMode,
      set_autosize this [v]
        = (storeEditText this { et with autosize := m }, .ok .undefined)
      ∧ (str = "left" → m = .Left)
      ∧ (str = "center" → m = .Center)
      ∧ (str = "right" → m = .Right)
      ∧ (str ≠ "left" → str ≠ "center" → str ≠ "right" → m = .None)
      ∧ ∃ t : String,
          autosize (storeEditText this { et with autosize := m }) []
            = .ok (.string t)
          ∧ (t = "none" ∨ t = "left" ∨ t = "center" ∨ t = "right")
          ∧ (set_autosize (storeEditText this { et with autosize := m })
                [.string t]).1
            = storeEditText this { et with autosize := m } := by
  have hc' : (([v].getD 0 Value.undefined)).coerce_to_string
      = Except.ok str := hc
  have h2 : ∀ mode : AutoSizeMode,
      receiverEditText (storeEditText this { et with autosize := mode })
        = some { et with autosize := mode } :=
    fun mode => receiverEditText_store this et _ h
  by_cases h1 : str = "left"
  · subst h1
    refine ⟨.Left, ?_, by decide, by decide, by decide, by decide,
      "left", ?_, by decide, ?_⟩
    · simp only [set_autosize, h, hc']
    · simp only [autosize, h2]
    · have hc2 : (([Value.string "left"].getD 0 Value.undefined)).coerce_to_string
          = Except.ok "left" := rfl
      simp only [set_autosize, h2, hc2]
      rw [storeEditText_store]
  · by_cases hm2 : str = "center"
    · subst hm2
      refine ⟨.Center, ?_, by decide, by decide, by decide, by decide,
        "center", ?_, by decide, ?_⟩
      · simp only [set_autosize, h, hc']
      · simp only [autosize, h2]
      · have hc2 : (([Value.string "center"].getD 0
              Value.undefined)).coerce_to_string = Except.ok "center" := rfl
        simp only [set_autosize, h2, hc2]
        rw [storeEditText_store]
    · by_cases hm3 : str = "right"
      · subst hm3
        refine ⟨.Right, ?_, by decide, by decide, by decide, by decide,
          "right", ?_, by decide, ?_⟩
        · simp only [set_autosize, h, hc']
        · simp only [autosize, h2]
        · have hc2 : (([Value.string "right"].getD 0
                Value.undefined)).coerce_to_string = Except.ok "right" := rfl
          simp only [set_autosize, h2, hc2]
          rw [storeEditText_store]
      · have hmm := autosize_match_default str h1 hm2 hm3
        refine ⟨.None, ?_,
          fun hh => absurd hh h1, fun hh => absurd hh hm2,
          fun hh => absurd hh hm3, fun _ _ _ => rfl,
          "none", ?_, by decide, ?_⟩
        · simp only [set_autosize, h, hc', hmm]
        · simp only [autosize, h2]
        · have hc2 : (([Value.string "none"].getD 0
                Value.undefined)).coerce_to_string = Except.ok "none" := rfl
          simp only [set_autosize, h2, hc2]
          rw [storeEditText_store]
          rfl

/-- C10 witness: setting `autoSize` to "left" on a fresh backing stores
mode Left. -/
theorem set_autosize_stores_mode_and_roundtrips_witness :
    (set_autosize (some ⟨some (.editText EditText.new)⟩)
        [.string "left"]).1
      = storeEditText (some ⟨some (.editText EditText.new)⟩)
          { EditText.new with autosize := .Left } := by
  obtain ⟨m, hset, hleft, -, -, -, -⟩ :=
    set_autosize_stores_mode_and_roundtrips
      (some ⟨some (.editText EditText.new)⟩) EditText.new
      (.string "left") "left" rfl rfl
  rw [hset, hleft rfl]
